import Mathlib

/-!
Verification development for the marble-storage geometry generator
(`marbleStorage.py`).  The script derives tube dimensions from a small
parameter block, builds a serpentine centerline path out of straight lines
and tangent-constrained splines, sweeps a circular profile along it, and
composes a housing solid with boolean operations and fillets.

The embedding works over `ℚ`: every numeric literal of the source is a
decimal that is represented exactly, and the arithmetic is plain field
arithmetic.  Geometry-kernel objects (solids, wires, edge selections) are
represented by a free term algebra `Shape`, so that the *composition* the
script performs is captured syntactically; kernel-internal behaviour
(sweeping, filleting, boolean evaluation) is outside the program and is
left uninterpreted.  The bounding-box query on the groove solid is a kernel
call, so `make_storage` takes the queried box as an explicit argument, and
the success of each guarded fillet attempt is likewise an external outcome,
passed as a `FilletOracle`.
-/

/-- The module-level parameter block of the script (lines 9-30). -/
structure Params where
  marble_radius : ℚ
  clearance : ℚ
  marbles_per_layer : ℤ
  slope : ℚ
  turn_factor : ℚ
  outlet_factor : ℚ
  wall_thickness : ℚ
  enable_fillet : Bool
  fillet_radius : ℚ
  enable_windows : Bool
  window_height_factor : ℚ
  window_margin_factor : ℚ

/-- The default parameter values as written in the source. -/
def defaults : Params where
  marble_radius := 46 / 2
  clearance := 2
  marbles_per_layer := 2
  slope := 3 / 100
  turn_factor := 13 / 10
  outlet_factor := 13 / 10
  wall_thickness := 5
  enable_fillet := true
  fillet_radius := 4
  enable_windows := true
  window_height_factor := 8 / 10
  window_margin_factor := 5 / 10

/-- `tube_radius = marble_radius + clearance` (line 36). -/
def tube_radius (p : Params) : ℚ := p.marble_radius + p.clearance

/-- `turn_radius = tube_radius * turn_factor` (line 37). -/
def turn_radius (p : Params) : ℚ := tube_radius p * p.turn_factor

/-- `outlet_length = tube_radius * outlet_factor` (line 38). -/
def outlet_length (p : Params) : ℚ := tube_radius p * p.outlet_factor

/-- `layer1_len = marbles_per_layer * tube_radius * 2` (line 48). -/
def layer1_len (p : Params) : ℚ := (p.marbles_per_layer : ℚ) * tube_radius p * 2

/-- `layer2_len = (marbles_per_layer - 1) * tube_radius * 2` (line 49). -/
def layer2_len (p : Params) : ℚ := ((p.marbles_per_layer - 1 : ℤ) : ℚ) * tube_radius p * 2

/-- `layer3_len = (marbles_per_layer - 1) * tube_radius * 2 + tube_radius` (line 50). -/
def layer3_len (p : Params) : ℚ :=
  ((p.marbles_per_layer - 1 : ℤ) : ℚ) * tube_radius p * 2 + tube_radius p

/-- `layer1_height = layer1_len * slope` (line 53). -/
def layer1_height (p : Params) : ℚ := layer1_len p * p.slope

/-- `layer2_height = layer2_len * slope` (line 54). -/
def layer2_height (p : Params) : ℚ := layer2_len p * p.slope

/-- `layer3_height = layer3_len * slope` (line 55). -/
def layer3_height (p : Params) : ℚ := layer3_len p * p.slope

/- Path key points (lines 57-87), in the source's (y = travel, z = height)
coordinates; all points of the path have x = 0. -/

def outlet_start_y (_ : Params) : ℚ := 0
def outlet_start_z (_ : Params) : ℚ := 0
def outlet_end_y (p : Params) : ℚ := outlet_length p
def outlet_end_z (_ : Params) : ℚ := 0

def layer1_start_y (p : Params) : ℚ := outlet_end_y p
def layer1_start_z (p : Params) : ℚ := outlet_end_z p
def layer1_end_y (p : Params) : ℚ := outlet_end_y p + layer1_len p
def layer1_end_z (p : Params) : ℚ := layer1_height p

def turn1_apex_y (p : Params) : ℚ := layer1_end_y p + turn_radius p
def turn1_apex_z (p : Params) : ℚ := layer1_end_z p + turn_radius p

def layer2_start_y (p : Params) : ℚ := layer1_end_y p
def layer2_start_z (p : Params) : ℚ := layer1_end_z p + turn_radius p * 2
def layer2_end_y (p : Params) : ℚ := layer2_start_y p - layer2_len p
def layer2_end_z (p : Params) : ℚ := layer2_start_z p + layer2_height p

def turn2_apex_y (p : Params) : ℚ := layer2_end_y p - turn_radius p
def turn2_apex_z (p : Params) : ℚ := layer2_end_z p + turn_radius p

def layer3_start_y (p : Params) : ℚ := layer2_end_y p
def layer3_start_z (p : Params) : ℚ := layer2_end_z p + turn_radius p * 2
def layer3_end_y (p : Params) : ℚ := layer3_start_y p + layer3_len p
def layer3_end_z (p : Params) : ℚ := layer3_start_z p + layer3_height p

/-- A point or vector of the kernel, `cq.Vector(x, y, z)`. -/
structure Vec3 where
  x : ℚ
  y : ℚ
  z : ℚ
deriving DecidableEq

/-- One edge of the path wire: a straight line (`cq.Edge.makeLine`) or a
three-point tangent-constrained spline (`cq.Edge.makeSpline` with
`tangents`). -/
inductive Segment where
  | line (s e : Vec3)
  | spline (s apex e : Vec3) (ts ta te : Vec3)
deriving DecidableEq

/-- Start point of a segment. -/
def Segment.startPoint : Segment → Vec3
  | .line s _ => s
  | .spline s _ _ _ _ _ => s

/-- End point of a segment. -/
def Segment.endPoint : Segment → Vec3
  | .line _ e => e
  | .spline _ _ e _ _ _ => e

/-- The defining points of a segment, in traversal order. -/
def Segment.keyPoints : Segment → List Vec3
  | .line s e => [s, e]
  | .spline s apex e _ _ _ => [s, apex, e]

/-- `make_marble_path` (lines 44-114): the ordered list of the six edges
assembled into the wire — outlet line, layer-1 line, turn-1 spline,
layer-2 line, turn-2 spline, layer-3 line. -/
def make_marble_path (p : Params) : List Segment :=
  [ .line ⟨0, outlet_start_y p, outlet_start_z p⟩ ⟨0, outlet_end_y p, outlet_end_z p⟩,
    .line ⟨0, layer1_start_y p, layer1_start_z p⟩ ⟨0, layer1_end_y p, layer1_end_z p⟩,
    .spline ⟨0, layer1_end_y p, layer1_end_z p⟩
            ⟨0, turn1_apex_y p, turn1_apex_z p⟩
            ⟨0, layer2_start_y p, layer2_start_z p⟩
            ⟨0, 1, p.slope⟩ ⟨0, 0, 1⟩ ⟨0, -1, p.slope⟩,
    .line ⟨0, layer2_start_y p, layer2_start_z p⟩ ⟨0, layer2_end_y p, layer2_end_z p⟩,
    .spline ⟨0, layer2_end_y p, layer2_end_z p⟩
            ⟨0, turn2_apex_y p, turn2_apex_z p⟩
            ⟨0, layer3_start_y p, layer3_start_z p⟩
            ⟨0, -1, p.slope⟩ ⟨0, 0, 1⟩ ⟨0, 1, p.slope⟩,
    .line ⟨0, layer3_start_y p, layer3_start_z p⟩ ⟨0, layer3_end_y p, layer3_end_z p⟩ ]

/-- The height coordinates of the path's defining points, in traversal
order. -/
def path_heights (p : Params) : List ℚ :=
  ((make_marble_path p).flatMap Segment.keyPoints).map Vec3.z

/-- C1: for every parameter set, the six-segment path returned by
`make_marble_path` is continuous — each adjacent pair of segments shares
its junction point exactly (hence in particular within any tolerance ε). -/
theorem make_marble_path_continuous (p : Params) :
    (make_marble_path p).length = 6 ∧
      List.Chain' (fun a b => a.endPoint = b.startPoint) (make_marble_path p) := by
  refine ⟨rfl, ?_⟩
  simp [make_marble_path, Segment.endPoint, Segment.startPoint,
    layer1_start_y, layer1_start_z]

/-- C2: at the source's default parameters (marble_radius = 23,
clearance = 2, marbles_per_layer = 2, slope = 0.03, turn_factor = 1.3,
outlet_factor = 1.3) the derived values are exactly tube_radius = 25,
turn_radius = 32.5, outlet_length = 32.5, layer1_len = 100,
layer1_height = 3, layer2_len = 50, layer2_height = 1.5, layer3_len = 75,
layer3_height = 2.25. -/
theorem derived_values_at_defaults :
    tube_radius defaults = 25 ∧
      turn_radius defaults = 65 / 2 ∧
      outlet_length defaults = 65 / 2 ∧
      layer1_len defaults = 100 ∧
      layer1_height defaults = 3 ∧
      layer2_len defaults = 50 ∧
      layer2_height defaults = 3 / 2 ∧
      layer3_len defaults = 75 ∧
      layer3_height defaults = 9 / 4 := by
  norm_num [tube_radius, turn_radius, outlet_length, layer1_len, layer2_len,
    layer3_len, layer1_height, layer2_height, layer3_height, defaults]

/-- C4: the third segment of the path is the turn-1 spline; its apex is the
layer-1 end point offset by `+turn_radius` in travel (y) and `+turn_radius`
in height (z); its end point is the layer-1 end point offset by 0 in travel
and `+2*turn_radius` in height; and its tangents are `(+1, slope)` at the
start, `(0, 1)` at the apex and `(-1, slope)` at the end (in travel/height
coordinates; the x component is 0 throughout). -/
theorem turn1_geometry (p : Params) :
    (make_marble_path p)[2]? =
      some (Segment.spline
        ⟨0, layer1_end_y p, layer1_end_z p⟩
        ⟨0, layer1_end_y p + turn_radius p, layer1_end_z p + turn_radius p⟩
        ⟨0, layer1_end_y p + 0, layer1_end_z p + 2 * turn_radius p⟩
        ⟨0, 1, p.slope⟩ ⟨0, 0, 1⟩ ⟨0, -1, p.slope⟩) := by
  simp [make_marble_path, turn1_apex_y, turn1_apex_z, layer2_start_y, layer2_start_z]
  ring_nf

/-- C9: given a valid parameter set (slope > 0, tube_radius > 0,
turn_factor > 0 — hence turn_radius > 0 — and at least one marble per
layer), the height coordinate is non-decreasing across the defining points
of the path returned by `make_marble_path`, from first point to last.  The
interior of each straight segment is linear between its endpoints and the
spline interiors are kernel-defined, so the defining points are the
program-level content of the claim. -/
theorem path_height_monotone (p : Params) (hs : 0 < p.slope)
    (htr : 0 < tube_radius p) (htf : 0 < p.turn_factor)
    (hm : 1 ≤ p.marbles_per_layer) :
    List.Chain' (· ≤ ·) (path_heights p) := by
  have hr : 0 < turn_radius p := mul_pos htr htf
  have hm1 : (1 : ℚ) ≤ (p.marbles_per_layer : ℚ) := by exact_mod_cast hm
  have h1 : 0 ≤ layer1_len p := by unfold layer1_len; nlinarith
  have h2 : 0 ≤ layer2_len p := by unfold layer2_len; push_cast; nlinarith
  have h3 : 0 ≤ layer3_len p := by unfold layer3_len; push_cast; nlinarith
  have g1 : 0 ≤ layer1_height p := mul_nonneg h1 hs.le
  have g2 : 0 ≤ layer2_height p := mul_nonneg h2 hs.le
  have g3 : 0 ≤ layer3_height p := mul_nonneg h3 hs.le
  simp only [path_heights, make_marble_path, Segment.keyPoints, List.flatMap_cons,
    List.flatMap_nil, List.map_cons, List.map_nil, List.append_nil, List.cons_append,
    List.nil_append, List.chain'_cons, List.chain'_singleton, and_true,
    outlet_start_z, outlet_end_z, layer1_start_z, layer1_end_z, turn1_apex_z,
    layer2_start_z, layer2_end_z, turn2_apex_z, layer3_start_z, layer3_end_z]
  repeat' apply And.intro
  all_goals linarith

/-- C9 witness: the hypotheses hold at the default parameters, and the
height sequence of the default path is non-decreasing. -/
theorem path_height_monotone_witness :
    (0 < defaults.slope ∧ 0 < tube_radius defaults ∧ 0 < defaults.turn_factor ∧
        1 ≤ defaults.marbles_per_layer) ∧
      List.Chain' (· ≤ ·) (path_heights defaults) :=
  ⟨⟨by norm_num [defaults], by norm_num [tube_radius, defaults],
    by norm_num [defaults], by norm_num [defaults]⟩,
   path_height_monotone defaults (by norm_num [defaults])
     (by norm_num [tube_radius, defaults]) (by norm_num [defaults])
     (by norm_num [defaults])⟩

namespace Windows

/- `make_windows` (lines 136-205) recomputes the layer lengths and heights
with its own local variables (lines 139-145); these are embedded here under
the `Windows` namespace, transcribed from those lines. -/

/-- Line 139. -/
def layer1_len (p : Params) : ℚ := (p.marbles_per_layer : ℚ) * tube_radius p * 2

/-- Line 140. -/
def layer2_len (p : Params) : ℚ := ((p.marbles_per_layer - 1 : ℤ) : ℚ) * tube_radius p * 2

/-- Line 141. -/
def layer3_len (p : Params) : ℚ :=
  ((p.marbles_per_layer - 1 : ℤ) : ℚ) * tube_radius p * 2 + tube_radius p

/-- Line 143. -/
def layer1_height (p : Params) : ℚ := layer1_len p * p.slope

/-- Line 144. -/
def layer2_height (p : Params) : ℚ := layer2_len p * p.slope

/-- Line 145. -/
def layer3_height (p : Params) : ℚ := layer3_len p * p.slope

/-- Line 148: `total_height = layer1_height + turn_radius*2 + layer2_height
+ turn_radius*2 + layer3_height`. -/
def total_height (p : Params) : ℚ :=
  layer1_height p + turn_radius p * 2 + layer2_height p + turn_radius p * 2 + layer3_height p

/-- Lines 151-153. -/
def box_start_y (p : Params) : ℚ := outlet_length p

def box_end_y (p : Params) : ℚ := outlet_length p + layer1_len p + turn_radius p

def box_length (p : Params) : ℚ := box_end_y p - box_start_y p

/-- Lines 155-157. -/
def window_length (p : Params) : ℚ := box_length p * (8 / 10)

def window_height (p : Params) : ℚ := tube_radius p * p.window_height_factor

def window_depth (p : Params) : ℚ := tube_radius p * 3

/-- Line 160. -/
def window_center_y (p : Params) : ℚ := box_start_y p + box_length p / 2

/-- Line 163. -/
def window_upper_z (p : Params) : ℚ := total_height p * 5 / 10

/-- Line 173. -/
def window_lower_z (p : Params) : ℚ := layer1_height p / 2

/-- Line 183. -/
def turn2_z (p : Params) : ℚ :=
  layer1_height p + turn_radius p * 2 + layer2_height p + (8 / 10) * turn_radius p

/-- Lines 194-195. -/
def turn1_z (p : Params) : ℚ := layer1_height p + turn_radius p

def turn1_y (p : Params) : ℚ := outlet_length p + layer1_len p + turn_radius p

end Windows

/-- C10: the layer lengths and heights recomputed inside `make_windows`
equal those computed inside `make_marble_path`, and `make_windows`'s
`total_height` equals the height coordinate of the path's final point
(layer-3 end). -/
theorem windows_recompute_agrees_with_path (p : Params) :
    Windows.layer1_len p = layer1_len p ∧
      Windows.layer2_len p = layer2_len p ∧
      Windows.layer3_len p = layer3_len p ∧
      Windows.layer1_height p = layer1_height p ∧
      Windows.layer2_height p = layer2_height p ∧
      Windows.layer3_height p = layer3_height p ∧
      Windows.total_height p = layer3_end_z p := by
  refine ⟨rfl, rfl, rfl, rfl, rfl, rfl, ?_⟩
  unfold Windows.total_height Windows.layer1_height Windows.layer2_height
    Windows.layer3_height Windows.layer1_len Windows.layer2_len Windows.layer3_len
    layer3_end_z layer3_start_z layer2_end_z layer2_start_z layer1_end_z
    layer3_height layer2_height layer1_height layer3_len layer2_len layer1_len
  ring

/-- Edge selections used by the script: `"|Z"` (vertical edges), `">Z"`
(top edges), `"|Y"` (edges parallel to the travel axis). -/
inductive EdgeSel where
  | vertZ
  | topZ
  | alongY
deriving DecidableEq

/-- Free term algebra over the geometry kernel: the script's solids are
built from boxes, spheres, a swept profile, circle extrusions, fillets and
boolean union/cut.  The constructors record exactly the arguments the
script passes to the kernel; evaluation of the geometry is external. -/
inductive Shape where
  | box (width length height : ℚ) (center : Vec3)
  | sphereAt (r : ℚ) (center : Vec3)
  | sweep (profile_radius : ℚ) (path : List Segment)
  | clean (s : Shape)
  | circExtrude (plane_offset center_z r depth : ℚ)
  | fillet (s : Shape) (sel : EdgeSel) (r : ℚ)
  | union (a b : Shape)
  | cut (a b : Shape)
deriving DecidableEq

/-- `make_groove_solid` (lines 120-130): sweep a circle of radius
`tube_radius` along the path, clean, and union two spherical caps — one
translated to `(0, 0, -0.35*tube_radius)`, one at the path's end point. -/
def make_groove_solid (p : Params) : Shape :=
  let tube := Shape.clean (Shape.sweep (tube_radius p) (make_marble_path p))
  Shape.union
    (Shape.union tube (Shape.sphereAt (tube_radius p) ⟨0, 0, -(35 / 100) * tube_radius p⟩))
    (Shape.sphereAt (tube_radius p) ⟨0, layer3_end_y p, layer3_end_z p⟩)

namespace Windows

/-- Upper window (lines 165-170): a box at `(0, window_center_y,
window_upper_z)` with its `"|Y"` edges filleted. -/
def window_upper (p : Params) : Shape :=
  Shape.fillet
    (Shape.box (window_depth p) (window_length p) (window_height p)
      ⟨0, window_center_y p, window_upper_z p⟩)
    EdgeSel.alongY (window_height p / 2 - 1 / 10)

/-- Lower window (lines 175-180). -/
def window_lower (p : Params) : Shape :=
  Shape.fillet
    (Shape.box (window_depth p) (window_length p) (window_height p)
      ⟨0, window_center_y p, window_lower_z p⟩)
    EdgeSel.alongY (window_height p / 2 - 1 / 10)

/-- Front circular port (lines 185-191): circle of radius `0.7*tube_radius`
on an XZ workplane offset `outlet_length`, centered at height `turn2_z`,
extruded `-4*tube_radius`. -/
def window_front (p : Params) : Shape :=
  Shape.circExtrude (outlet_length p) (turn2_z p) (tube_radius p * (7 / 10))
    (-(tube_radius p * 4))

/-- Back circular port (lines 197-203): workplane offset `-turn1_y`,
centered at height `turn1_z`, extruded `-4*tube_radius`. -/
def window_back (p : Params) : Shape :=
  Shape.circExtrude (-(turn1_y p)) (turn1_z p) (tube_radius p * (7 / 10))
    (-(tube_radius p * 4))

/-- `make_windows` (line 205): `window_upper.union(window_lower)
.union(window_front).union(window_back)`. -/
def make_windows (p : Params) : Shape :=
  Shape.union (Shape.union (Shape.union (window_upper p) (window_lower p))
    (window_front p)) (window_back p)

end Windows

/-- The axis-aligned bounding box returned by the kernel's
`BoundingBox()` query on the groove solid (line 215); the query itself is a
kernel operation, so its result is an input of the housing builder. -/
structure BBox where
  xmin : ℚ
  xmax : ℚ
  ymin : ℚ
  ymax : ℚ
  zmin : ℚ
  zmax : ℚ
deriving DecidableEq

/-- Outcome of the three guarded fillet attempts in `make_storage`
(lines 248-261): whether the kernel succeeds on the ground box's vertical
edges, the upper box's top edges, and the upper box's vertical edges.
Success is decided by the kernel, so it is an input of the model. -/
structure FilletOracle where
  ground_ok : Bool
  box_top_ok : Bool
  box_vert_ok : Bool
deriving DecidableEq

namespace Storage

/-- Line 218: `box_length = bb.ymax - bb.ymin + 2*wall_thickness -
2*tube_radius`. -/
def box_length (p : Params) (bb : BBox) : ℚ :=
  bb.ymax - bb.ymin + 2 * p.wall_thickness - 2 * tube_radius p

/-- Line 219: `box_width = bb.xmax - bb.xmin + 2*wall_thickness +
0.2*tube_radius`. -/
def box_width (p : Params) (bb : BBox) : ℚ :=
  bb.xmax - bb.xmin + 2 * p.wall_thickness + (2 / 10) * tube_radius p

/-- Line 220: `box_height = bb.zmax - bb.zmin + wall_thickness -
1.7*tube_radius`. -/
def box_height (p : Params) (bb : BBox) : ℚ :=
  bb.zmax - bb.zmin + p.wall_thickness - (17 / 10) * tube_radius p

/-- Lines 222-224. -/
def box_center_x (_ : Params) (bb : BBox) : ℚ := (bb.xmax + bb.xmin) / 2

def box_center_y (p : Params) (bb : BBox) : ℚ := (bb.ymax + bb.ymin + 2 * tube_radius p) / 2

def box_center_z (p : Params) (bb : BBox) : ℚ := (bb.zmax - (17 / 10) * tube_radius p + bb.zmin) / 2

/-- The upper box (lines 226-230). -/
def upperBox (p : Params) (bb : BBox) : Shape :=
  Shape.box (box_width p bb) (box_length p bb) (box_height p bb)
    ⟨box_center_x p bb, box_center_y p bb, box_center_z p bb⟩

/-- Lines 233-235. -/
def ground_length (p : Params) (bb : BBox) : ℚ := bb.ymax - bb.ymin + 2 * p.wall_thickness

def ground_width (p : Params) (bb : BBox) : ℚ :=
  bb.xmax - bb.xmin + 2 * p.wall_thickness + 1 * tube_radius p

def ground_height (p : Params) (_ : BBox) : ℚ := (12 / 10) * tube_radius p

/-- Lines 237-239. -/
def ground_center_x (_ : Params) (bb : BBox) : ℚ := (bb.xmax + bb.xmin) / 2

def ground_center_y (_ : Params) (bb : BBox) : ℚ := (bb.ymax + bb.ymin) / 2

def ground_center_z (p : Params) (_ : BBox) : ℚ := -(9 / 10) * tube_radius p

/-- The ground (base) box (lines 241-245). -/
def baseBox (p : Params) (bb : BBox) : Shape :=
  Shape.box (ground_width p bb) (ground_length p bb) (ground_height p bb)
    ⟨ground_center_x p bb, ground_center_y p bb, ground_center_z p bb⟩

/-- One guarded fillet attempt, `try: s = s.edges(sel).fillet(r) except:
pass` — on kernel failure (`ok = false`) the solid is left unchanged. -/
def tryFillet (ok : Bool) (sel : EdgeSel) (r : ℚ) (s : Shape) : Shape :=
  if ok then Shape.fillet s sel r else s

/-- `make_storage` (lines 212-270).  `bb` is the kernel's bounding box of
`groove` and `fo` records which of the three guarded fillet attempts the
kernel accepts.  The `if windows:` truthiness test on line 267 is always
true (`make_windows` returns a kernel object), so it is not modelled as a
branch. -/
def make_storage (p : Params) (bb : BBox) (fo : FilletOracle) (groove : Shape) : Shape :=
  let box := upperBox p bb
  let ground := baseBox p bb
  let ground := if p.enable_fillet then tryFillet fo.ground_ok EdgeSel.vertZ p.fillet_radius ground else ground
  let box := if p.enable_fillet then
      tryFillet fo.box_vert_ok EdgeSel.vertZ p.fillet_radius
        (tryFillet fo.box_top_ok EdgeSel.topZ p.fillet_radius box)
    else box
  let result := Shape.cut (Shape.union box ground) groove
  if p.enable_windows then Shape.cut result (Windows.make_windows p) else result

end Storage

namespace Storage

/-- The upper box after the (guarded) fillet steps of `make_storage` have
run on it: its top-edge and vertical-edge fillets, each kept or skipped
according to its own kernel outcome. -/
def filletedUpper (p : Params) (bb : BBox) (fo : FilletOracle) : Shape :=
  if p.enable_fillet then
    tryFillet fo.box_vert_ok EdgeSel.vertZ p.fillet_radius
      (tryFillet fo.box_top_ok EdgeSel.topZ p.fillet_radius (upperBox p bb))
  else upperBox p bb

/-- The base (ground) box after its guarded vertical-edge fillet step. -/
def filletedBase (p : Params) (bb : BBox) (fo : FilletOracle) : Shape :=
  if p.enable_fillet then
    tryFillet fo.ground_ok EdgeSel.vertZ p.fillet_radius (baseBox p bb)
  else baseBox p bb

/-- The base-box operand of the union in the result of `make_storage`,
read back off the composed term (with or without the window cut). -/
def lowerComponent : Shape → Option Shape
  | .cut (.cut (.union _ l) _) _ => some l
  | .cut (.union _ l) _ => some l
  | _ => none

/-- The upper-box operand of the union in the result of `make_storage`. -/
def upperComponent : Shape → Option Shape
  | .cut (.cut (.union u _) _) _ => some u
  | .cut (.union u _) _ => some u
  | _ => none

end Storage

/-- A concrete bounding box for witness and counterexample instances. -/
def sampleBB : BBox := ⟨-25, 25, -25, 315, -25, 180⟩

/-- C3: with windows enabled, `make_storage` produces exactly
`((filleted upper box) ∪ (filleted base box)) − groove − windows`: the
fillets are applied to the two boxes first, then the boxes are unioned,
then the tube (groove) solid is subtracted, then the window cutouts are
subtracted. -/
theorem make_storage_composition (p : Params) (bb : BBox) (fo : FilletOracle)
    (groove : Shape) (hw : p.enable_windows = true) :
    Storage.make_storage p bb fo groove =
      Shape.cut
        (Shape.cut
          (Shape.union (Storage.filletedUpper p bb fo) (Storage.filletedBase p bb fo))
          groove)
        (Windows.make_windows p) := by
  unfold Storage.make_storage Storage.filletedUpper Storage.filletedBase
  simp [hw]

/-- C3 witness: the composition equation instantiated at the default
parameters (windows enabled), the sample bounding box, all fillets
succeeding, and the actual groove solid. -/
theorem make_storage_composition_witness :
    defaults.enable_windows = true ∧
      Storage.make_storage defaults sampleBB ⟨true, true, true⟩ (make_groove_solid defaults) =
        Shape.cut
          (Shape.cut
            (Shape.union (Storage.filletedUpper defaults sampleBB ⟨true, true, true⟩)
              (Storage.filletedBase defaults sampleBB ⟨true, true, true⟩))
            (make_groove_solid defaults))
          (Windows.make_windows defaults) :=
  ⟨rfl, make_storage_composition defaults sampleBB ⟨true, true, true⟩
    (make_groove_solid defaults) rfl⟩

/-- C5 counterexample: at the default parameters and a concrete bounding
box, the upper box's width is NOT the bounding-box x-span plus wall
thickness on each side — the source adds a further `0.2*tube_radius`
(line 219), so the claim's "no other size adjustment in any horizontal
direction" fails. -/
theorem upper_box_width_exceeds_claimed :
    Storage.box_width defaults sampleBB ≠
      sampleBB.xmax - sampleBB.xmin + 2 * defaults.wall_thickness := by
  norm_num [Storage.box_width, tube_radius, defaults, sampleBB]

/-- C5 amended: the upper box spans the bounding box plus wall thickness in
each horizontal direction, reduced by `2*tube_radius` in the travel (y)
axis and additionally widened by `0.2*tube_radius` in the x axis; its
height is the bounding-box height plus wall thickness reduced by
`1.7*tube_radius`. -/
theorem upper_box_dimensions (p : Params) (bb : BBox) :
    Storage.upperBox p bb = Shape.box
      (bb.xmax - bb.xmin + 2 * p.wall_thickness + (2 / 10) * tube_radius p)
      (bb.ymax - bb.ymin + 2 * p.wall_thickness - 2 * tube_radius p)
      (bb.zmax - bb.zmin + p.wall_thickness - (17 / 10) * tube_radius p)
      ⟨(bb.xmax + bb.xmin) / 2, (bb.ymax + bb.ymin + 2 * tube_radius p) / 2,
        (bb.zmax - (17 / 10) * tube_radius p + bb.zmin) / 2⟩ := rfl

/-- C6 counterexample: at the default parameters and a concrete bounding
box, the base box's width is NOT the bounding-box x-span plus wall
thickness on each side — the source adds a further `1*tube_radius`
(line 234), so the claim's "no other size adjustment" fails. -/
theorem base_box_width_exceeds_claimed :
    Storage.ground_width defaults sampleBB ≠
      sampleBB.xmax - sampleBB.xmin + 2 * defaults.wall_thickness := by
  norm_num [Storage.ground_width, tube_radius, defaults, sampleBB]

/-- C6 amended: the base box spans the bounding box plus wall thickness in
both horizontal directions, additionally widened by `1*tube_radius` in the
x axis; its full height is `1.2*tube_radius` and its center height is
`-0.9*tube_radius`. -/
theorem base_box_dimensions (p : Params) (bb : BBox) :
    Storage.baseBox p bb = Shape.box
      (bb.xmax - bb.xmin + 2 * p.wall_thickness + 1 * tube_radius p)
      (bb.ymax - bb.ymin + 2 * p.wall_thickness)
      ((12 / 10) * tube_radius p)
      ⟨(bb.xmax + bb.xmin) / 2, (bb.ymax + bb.ymin) / 2, -(9 / 10) * tube_radius p⟩ := rfl

/-- C7: with windows disabled, `make_storage` returns exactly
`(filleted upper box ∪ filleted base box) − groove` — the windowed build
with only the final window subtraction omitted: the build with windows
enabled (and everything else unchanged) is exactly that same solid with
one further cut by the window cutouts. -/
theorem windows_disabled_skips_only_window_cut (p : Params) (bb : BBox)
    (fo : FilletOracle) (groove : Shape) (hw : p.enable_windows = false) :
    Storage.make_storage p bb fo groove =
        Shape.cut
          (Shape.union (Storage.filletedUpper p bb fo) (Storage.filletedBase p bb fo))
          groove ∧
      Storage.make_storage { p with enable_windows := true } bb fo groove =
        Shape.cut (Storage.make_storage p bb fo groove) (Windows.make_windows p) := by
  have h1 : Storage.make_storage p bb fo groove =
      Shape.cut
        (Shape.union (Storage.filletedUpper p bb fo) (Storage.filletedBase p bb fo))
        groove := by
    unfold Storage.make_storage Storage.filletedUpper Storage.filletedBase
    simp [hw]
  refine ⟨h1, ?_⟩
  rw [h1]
  rfl

/-- The default parameters with windows disabled. -/
def noWindows : Params := { defaults with enable_windows := false }

/-- C7 witness: the equation pair instantiated at the default parameters
with windows disabled, the sample bounding box, all fillets succeeding, and
the actual groove solid. -/
theorem windows_disabled_skips_only_window_cut_witness :
    noWindows.enable_windows = false ∧
      (Storage.make_storage noWindows sampleBB ⟨true, true, true⟩ (make_groove_solid noWindows) =
          Shape.cut
            (Shape.union (Storage.filletedUpper noWindows sampleBB ⟨true, true, true⟩)
              (Storage.filletedBase noWindows sampleBB ⟨true, true, true⟩))
            (make_groove_solid noWindows) ∧
        Storage.make_storage { noWindows with enable_windows := true } sampleBB ⟨true, true, true⟩
            (make_groove_solid noWindows) =
          Shape.cut
            (Storage.make_storage noWindows sampleBB ⟨true, true, true⟩ (make_groove_solid noWindows))
            (Windows.make_windows noWindows)) :=
  ⟨rfl, windows_disabled_skips_only_window_cut noWindows sampleBB ⟨true, true, true⟩
    (make_groove_solid noWindows) rfl⟩

/-- C8: the three guarded fillet attempts are independent.  With fillets
enabled, for every combination of kernel outcomes the build completes with
its full structure; the base-box operand of the result depends only on the
ground attempt's outcome, the upper-box operand only on the two box
attempts' outcomes; and a failed attempt (`ok = false`) leaves its solid
unchanged (unfilleted).  The result type carries no record of which
attempts failed. -/
theorem fillet_attempts_independent (p : Params) (bb : BBox) (fo : FilletOracle)
    (groove : Shape) (hf : p.enable_fillet = true) :
    Storage.lowerComponent (Storage.make_storage p bb fo groove) =
        some (Storage.tryFillet fo.ground_ok EdgeSel.vertZ p.fillet_radius
          (Storage.baseBox p bb)) ∧
      Storage.upperComponent (Storage.make_storage p bb fo groove) =
        some (Storage.tryFillet fo.box_vert_ok EdgeSel.vertZ p.fillet_radius
          (Storage.tryFillet fo.box_top_ok EdgeSel.topZ p.fillet_radius
            (Storage.upperBox p bb))) ∧
      (∀ sel r s, Storage.tryFillet false sel r s = s) := by
  unfold Storage.make_storage
  cases hwin : p.enable_windows <;>
    simp [hf, Storage.lowerComponent, Storage.upperComponent, Storage.tryFillet]

/-- C8 witness: instantiated at the default parameters (fillets enabled),
the sample bounding box, the outcome where only the upper box's top-edge
fillet succeeds, and the actual groove solid. -/
theorem fillet_attempts_independent_witness :
    defaults.enable_fillet = true ∧
      (Storage.lowerComponent
          (Storage.make_storage defaults sampleBB ⟨false, true, false⟩ (make_groove_solid defaults)) =
          some (Storage.tryFillet false EdgeSel.vertZ defaults.fillet_radius
            (Storage.baseBox defaults sampleBB)) ∧
        Storage.upperComponent
          (Storage.make_storage defaults sampleBB ⟨false, true, false⟩ (make_groove_solid defaults)) =
          some (Storage.tryFillet false EdgeSel.vertZ defaults.fillet_radius
            (Storage.tryFillet true EdgeSel.topZ defaults.fillet_radius
              (Storage.upperBox defaults sampleBB))) ∧
        (∀ sel r s, Storage.tryFillet false sel r s = s)) :=
  ⟨rfl, fillet_attempts_independent defaults sampleBB ⟨false, true, false⟩
    (make_groove_solid defaults) rfl⟩
